import Mathlib

/-!
Shallow embedding of the todo request handler (src/handler.ts).

The handler dispatches an HTTP-like event to one of five operations
backed by a key-value store (DynamoDB document client) and a best-effort
metrics sink (CloudWatch).  Every external effect of one request is
resolved by a per-request oracle `World`: one outcome per store command
kind, one outcome for the metric emission, the freshly generated
identifier (uuidv4), and one value per clock-read site
(each `new Date().toISOString()` occurrence reads the clock once, so the
two reads in createTodo are distinct oracle fields).  Handlers return the
response (or a propagating exception, caught by `mainHandler`) together
with the trace of store and metric commands they issued.
-/

/-- Embedding of the `Todo` interface (handler.ts lines 18-25).
`description` is an optional attribute of the stored item. -/
structure Todo where
  todoId : String
  title : String
  description : Option String
  completed : Bool
  createdAt : String
  updatedAt : String
deriving Repr, DecidableEq

/-- Result of JSON-parsing a request body, restricted to the three
fields the handler ever reads (`body.title`, `body.description`,
`body.completed`).  `none` embeds the JavaScript `undefined`. -/
structure ParsedBody where
  title : Option String
  description : Option String
  completed : Option Bool
deriving Repr, DecidableEq

/-- Raw request body of the event. `nullBody` is a `null` (or empty)
`event.body`, for which the code parses the fallback literal; `malformed`
is a body on which `JSON.parse` throws. -/
inductive RawBody where
  | nullBody
  | malformed
  | json (b : ParsedBody)
deriving Repr, DecidableEq

/-- A thrown JavaScript error, identified by its `name` property, which
is all the handler ever inspects (`error.name === ...`). -/
structure Err where
  name : String
deriving Repr, DecidableEq

/-- Embedding of the JSON.parse of the event body with its empty-object
fallback: a `null` body parses to the empty object, a malformed body
throws. -/
def parseBody : RawBody → Except Err ParsedBody
  | RawBody.nullBody => Except.ok ⟨none, none, none⟩
  | RawBody.malformed => Except.error ⟨"SyntaxError"⟩
  | RawBody.json b => Except.ok b

/-- JavaScript truthiness of an optional string value: `undefined` and
the empty string are falsy (used by `!body.title` and `todoId ? ... : ...`). -/
def isTruthy : Option String → Bool
  | none => false
  | some s => !(s == "")

/-- The partial field-update set built by updateTodo (lines 145-170):
a field is `some` exactly when the corresponding SET clause was pushed
onto the update expression. -/
structure UpdateFields where
  title : Option String
  description : Option String
  completed : Option Bool
  updatedAt : Option String
deriving Repr, DecidableEq

/-- Response body values the handler passes to `createResponse`. -/
inductive BodyVal where
  | errObj (msg : String)
  | item (t : Todo)
  | todos (ts : List Todo)
  | emptyObj
deriving Repr, DecidableEq

/-- Embedding of `APIGatewayProxyResult`.  The body is kept structured;
`ApiResponse.bodyText` is its `JSON.stringify` serialization. -/
structure ApiResponse where
  statusCode : Nat
  headers : List (String × String)
  body : BodyVal
deriving Repr, DecidableEq

/-- One store or metrics command sent over a client `send` call.  Keys of
update and delete are `Option String` because the non-null assertion
`todoId!` can forward `undefined` at runtime. -/
inductive Call where
  | dbGet (key : String)
  | dbPut (item : Todo)
  | dbUpdate (key : Option String) (fields : UpdateFields)
  | dbDelete (key : Option String) (conditionExpr : String)
  | dbScan
  | cwPutMetric (namespaceName metricName : String) (value : Nat)
deriving Repr, DecidableEq

/-- Per-request oracle resolving every external interaction: outcome of
each store command kind, outcome of the metric emission, the fresh
uuidv4 value, and one clock value per `new Date().toISOString()` site
(`createNow1` and `createNow2` are the two successive reads at
handler.ts lines 103-104, `updateNow` the read at line 170). -/
structure World where
  putOutcome : Except Err Unit
  getOutcome : Except Err (Option Todo)
  updateOutcome : Except Err Todo
  deleteOutcome : Except Err Unit
  scanOutcome : Except Err (Option (List Todo))
  metricOutcome : Except Err Unit
  freshId : String
  createNow1 : String
  createNow2 : String
  updateNow : String

/-- JSON string literal serialization. -/
def jstr (s : String) : String := "\"" ++ s ++ "\""

/-- JSON.stringify of a stored item; an absent optional attribute is
omitted from the output, as JSON.stringify omits `undefined` fields. -/
def stringifyTodo (t : Todo) : String :=
  "\x7b" ++ "\"todoId\":" ++ jstr t.todoId ++ ",\"title\":" ++ jstr t.title
  ++ (match t.description with
      | none => ""
      | some d => ",\"description\":" ++ jstr d)
  ++ ",\"completed\":" ++ (if t.completed then "true" else "false")
  ++ ",\"createdAt\":" ++ jstr t.createdAt
  ++ ",\"updatedAt\":" ++ jstr t.updatedAt ++ "\x7d"

/-- JSON.stringify of each body value shape passed to `createResponse`. -/
def stringifyBody : BodyVal → String
  | BodyVal.errObj msg => "\x7b\"error\":" ++ jstr msg ++ "\x7d"
  | BodyVal.item t => stringifyTodo t
  | BodyVal.todos ts =>
      "\x7b\"todos\":[" ++ String.intercalate "," (ts.map stringifyTodo) ++ "]\x7d"
  | BodyVal.emptyObj => "\x7b\x7d"

/-- Serialized body string of a response, as emitted on the wire. -/
def ApiResponse.bodyText (r : ApiResponse) : String := stringifyBody r.body

/-- The fixed header map attached by `createResponse` (lines 57-61). -/
def stdHeaders : List (String × String) :=
  [("Content-Type", "application/json"),
   ("Access-Control-Allow-Origin", "*"),
   ("Access-Control-Allow-Methods", "GET,POST,PUT,DELETE,OPTIONS")]

/-- Embedding of `createResponse` (lines 55-63). -/
def createResponse (statusCode : Nat) (body : BodyVal) : ApiResponse :=
  { statusCode := statusCode, headers := stdHeaders, body := body }

/-- Embedding of `putMetric` (lines 39-53): the PutMetricData command is
sent; a failure is caught, logged and swallowed, so the function never
throws and in both cases the attempted call is the whole effect. -/
def putMetric (w : World) (metricName : String) (value : Nat) : List Call :=
  match w.metricOutcome with
  | Except.ok _ => [Call.cwPutMetric "TodoApp" metricName value]
  | Except.error _ => [Call.cwPutMetric "TodoApp" metricName value]

/-- The item assembled by createTodo (lines 98-105) once the title
passed the truthiness check: fresh id, description defaulting to the
empty string, `completed` false, and the two successive clock reads. -/
def createdTodo (w : World) (body : ParsedBody) : Todo :=
  { todoId := w.freshId
    title := body.title.getD ""
    description := some (body.description.getD "")
    completed := false
    createdAt := w.createNow1
    updatedAt := w.createNow2 }

/-- Embedding of `createTodo` (lines 91-117). -/
def createTodo (w : World) (raw : RawBody) : Except Err ApiResponse × List Call :=
  match parseBody raw with
  | Except.error e => (Except.error e, [])
  | Except.ok body =>
    if !(isTruthy body.title) then
      (Except.ok (createResponse 400 (BodyVal.errObj "Title is required")), [])
    else
      match w.putOutcome with
      | Except.error e => (Except.error e, [Call.dbPut (createdTodo w body)])
      | Except.ok _ =>
        (Except.ok (createResponse 201 (BodyVal.item (createdTodo w body))),
         Call.dbPut (createdTodo w body) :: putMetric w "TodoCreatedCount" 1)

/-- Embedding of `getTodo` (lines 119-131). -/
def getTodo (w : World) (todoId : String) : Except Err ApiResponse × List Call :=
  match w.getOutcome with
  | Except.error e => (Except.error e, [Call.dbGet todoId])
  | Except.ok none =>
      (Except.ok (createResponse 404 (BodyVal.errObj "Todo not found")), [Call.dbGet todoId])
  | Except.ok (some item) =>
      (Except.ok (createResponse 200 (BodyVal.item item)), [Call.dbGet todoId])

/-- Embedding of `listTodos` (lines 133-140): `result.Items || []`. -/
def listTodos (w : World) : Except Err ApiResponse × List Call :=
  match w.scanOutcome with
  | Except.error e => (Except.error e, [Call.dbScan])
  | Except.ok items =>
      (Except.ok (createResponse 200 (BodyVal.todos (items.getD []))), [Call.dbScan])

/-- The field-update set built from the body by the three definedness
checks of updateTodo (lines 149-163), before `updatedAt` is appended. -/
def buildUpdateSet (body : ParsedBody) : UpdateFields :=
  { title := body.title
    description := body.description
    completed := body.completed
    updatedAt := none }

/-- Whether the built update expression is empty (line 165 check). -/
def UpdateFields.isEmptySet (u : UpdateFields) : Bool :=
  u.title.isNone && u.description.isNone && u.completed.isNone

/-- The full field set sent in the UpdateCommand: the body fields plus
the `updatedAt` clause appended at lines 169-170. -/
def updateFieldsOf (body : ParsedBody) (now : String) : UpdateFields :=
  { title := body.title
    description := body.description
    completed := body.completed
    updatedAt := some now }

/-- Whether the body defines at least one of the three recognized fields. -/
def hasUpdateField (body : ParsedBody) : Bool :=
  !(buildUpdateSet body).isEmptySet

/-- Embedding of `updateTodo` (lines 142-190). -/
def updateTodo (w : World) (todoId : Option String) (raw : RawBody) :
    Except Err ApiResponse × List Call :=
  match parseBody raw with
  | Except.error e => (Except.error e, [])
  | Except.ok body =>
    if (buildUpdateSet body).isEmptySet then
      (Except.ok (createResponse 400 (BodyVal.errObj "No valid fields to update")), [])
    else
      match w.updateOutcome with
      | Except.ok attrs =>
          (Except.ok (createResponse 200 (BodyVal.item attrs)),
           [Call.dbUpdate todoId (updateFieldsOf body w.updateNow)])
      | Except.error e =>
          if e.name == "ValidationException" then
            (Except.ok (createResponse 404 (BodyVal.errObj "Todo not found")),
             [Call.dbUpdate todoId (updateFieldsOf body w.updateNow)])
          else
            (Except.error e, [Call.dbUpdate todoId (updateFieldsOf body w.updateNow)])

/-- Embedding of `deleteTodo` (lines 192-208). -/
def deleteTodo (w : World) (todoId : Option String) : Except Err ApiResponse × List Call :=
  match w.deleteOutcome with
  | Except.ok _ =>
      (Except.ok (createResponse 204 BodyVal.emptyObj),
       [Call.dbDelete todoId "attribute_exists(todoId)"])
  | Except.error e =>
      if e.name == "ConditionalCheckFailedException" then
        (Except.ok (createResponse 404 (BodyVal.errObj "Todo not found")),
         [Call.dbDelete todoId "attribute_exists(todoId)"])
      else
        (Except.error e, [Call.dbDelete todoId "attribute_exists(todoId)"])

/-- Embedding of `APIGatewayProxyEvent`, restricted to what `main`
reads: method, path, `event.pathParameters?.id`, and the raw body. -/
structure Event where
  httpMethod : String
  path : String
  todoId : Option String
  body : RawBody
deriving Repr, DecidableEq

/-- The routing switch of `main` (lines 73-84). -/
def route (w : World) (ev : Event) : Except Err ApiResponse × List Call :=
  if ev.httpMethod == "POST" then createTodo w ev.body
  else if ev.httpMethod == "GET" then
    if isTruthy ev.todoId then getTodo w (ev.todoId.getD "") else listTodos w
  else if ev.httpMethod == "PUT" then updateTodo w ev.todoId ev.body
  else if ev.httpMethod == "DELETE" then deleteTodo w ev.todoId
  else (Except.ok (createResponse 405 (BodyVal.errObj "Method not allowed")), [])

/-- Embedding of `main` (lines 65-89): route, and convert any
propagating exception into the uniform 500 response. -/
def mainHandler (w : World) (ev : Event) : ApiResponse × List Call :=
  match route w ev with
  | (Except.ok r, calls) => (r, calls)
  | (Except.error _, calls) =>
      (createResponse 500 (BodyVal.errObj "Internal server error"), calls)

/-- Modelled from the spec: the Store collaborator (the external
key-value persistence engine, which is not part of src/) executes
`update(key, partialFields) -> updatedItem`: each field present in the
partial set replaces the stored field of the item, fields absent from
the set are left untouched, and the post-update image is returned. -/
def applyUpdate (item : Todo) (u : UpdateFields) : Todo :=
  { item with
    title := u.title.getD item.title
    description := (match u.description with
                    | none => item.description
                    | some d => some d)
    completed := u.completed.getD item.completed
    updatedAt := u.updatedAt.getD item.updatedAt }

/-- A sample stored item used by concrete worlds. -/
def sampleTodo : Todo :=
  { todoId := "id-0"
    title := "old title"
    description := some "old description"
    completed := false
    createdAt := "2024-01-01T00:00:00.000Z"
    updatedAt := "2024-01-01T00:00:00.000Z" }

/-- A concrete world where every external interaction succeeds and both
create-time clock reads coincide. -/
def okWorld : World :=
  { putOutcome := Except.ok ()
    getOutcome := Except.ok (some sampleTodo)
    updateOutcome := Except.ok sampleTodo
    deleteOutcome := Except.ok ()
    scanOutcome := Except.ok (some [])
    metricOutcome := Except.ok ()
    freshId := "id-1"
    createNow1 := "2024-01-01T00:00:00.000Z"
    createNow2 := "2024-01-01T00:00:00.000Z"
    updateNow := "2024-01-02T00:00:00.000Z" }

/-- A concrete world identical to okWorld except that the clock ticks
between the two timestamp reads of createTodo. -/
def skewWorld : World :=
  { okWorld with
    createNow1 := "2024-01-01T00:00:00.000Z"
    createNow2 := "2024-01-01T00:00:00.001Z" }

/-- A concrete create body with a non-empty title. -/
def cBody : ParsedBody := ⟨some "buy milk", none, none⟩

/-- C4: a create request whose parsed body has a missing or empty
(falsy) title returns 400 with the Title-is-required error body, issues
no store call and emits no metric (empty call trace); the same holds for
a null body, which parses to the empty object. -/
theorem create_missing_title (w : World) (p : String) (pid : Option String)
    (b : ParsedBody) (ht : isTruthy b.title = false) :
    mainHandler w ⟨"POST", p, pid, RawBody.json b⟩
      = (createResponse 400 (BodyVal.errObj "Title is required"), []) ∧
    mainHandler w ⟨"POST", p, pid, RawBody.nullBody⟩
      = (createResponse 400 (BodyVal.errObj "Title is required"), []) := by
  constructor
  · simp [mainHandler, route, createTodo, parseBody, ht]
  · simp [mainHandler, route, createTodo, parseBody, isTruthy]

/-- C4 witness: instantiation at an empty-string title. -/
theorem create_missing_title_witness :
    isTruthy (ParsedBody.mk (some "") none none).title = false ∧
    mainHandler okWorld ⟨"POST", "/todos", none, RawBody.json ⟨some "", none, none⟩⟩
      = (createResponse 400 (BodyVal.errObj "Title is required"), []) :=
  ⟨rfl, (create_missing_title okWorld "/todos" none ⟨some "", none, none⟩ rfl).1⟩

/-- C1 (amended): a create request with a truthy title returns 201 whose
body is the newly created item; that item carries the freshly generated
identifier, completed false, description equal to the body description
or the empty string when absent, createdAt from the first clock read and
updatedAt from the second; the two are equal whenever the clock returns
the same instant for both reads. -/
theorem create_success_fields (w : World) (p : String) (pid : Option String)
    (b : ParsedBody) (ht : isTruthy b.title = true)
    (hput : w.putOutcome = Except.ok ()) :
    (mainHandler w ⟨"POST", p, pid, RawBody.json b⟩).1
      = createResponse 201 (BodyVal.item (createdTodo w b)) ∧
    (createdTodo w b).todoId = w.freshId ∧
    (createdTodo w b).completed = false ∧
    (createdTodo w b).description = some (b.description.getD "") ∧
    (createdTodo w b).createdAt = w.createNow1 ∧
    (createdTodo w b).updatedAt = w.createNow2 ∧
    (w.createNow1 = w.createNow2 →
      (createdTodo w b).createdAt = (createdTodo w b).updatedAt) := by
  refine ⟨?_, rfl, rfl, rfl, rfl, rfl, fun h => h⟩
  simp [mainHandler, route, createTodo, parseBody, ht, hput]

/-- C1 witness: instantiation at a concrete body and the all-success
world. -/
theorem create_success_fields_witness :
    isTruthy cBody.title = true ∧
    okWorld.putOutcome = Except.ok () ∧
    (mainHandler okWorld ⟨"POST", "/todos", none, RawBody.json cBody⟩).1
      = createResponse 201 (BodyVal.item (createdTodo okWorld cBody)) :=
  ⟨rfl, rfl, (create_success_fields okWorld "/todos" none cBody rfl rfl).1⟩

/-- C1 counterexample: when the clock ticks between the two timestamp
reads of createTodo (two separate toISOString calls), the request still
returns 201 with the created item as body, but that item has createdAt
different from updatedAt, refuting the claimed equality. -/
theorem create_equal_timestamps_cex :
    (mainHandler skewWorld ⟨"POST", "/todos", none, RawBody.json cBody⟩).1.statusCode = 201 ∧
    (mainHandler skewWorld ⟨"POST", "/todos", none, RawBody.json cBody⟩).1.body
      = BodyVal.item (createdTodo skewWorld cBody) ∧
    (createdTodo skewWorld cBody).createdAt ≠ (createdTodo skewWorld cBody).updatedAt := by
  refine ⟨rfl, rfl, ?_⟩
  decide

/-- C7: on a create request with a valid title, a failure of the metrics
sink is swallowed by putMetric: the request still returns 201 with the
created item, and the trace shows the store write followed by the
attempted metric emission. -/
theorem create_metric_failure_still_201 (w : World) (p : String)
    (pid : Option String) (b : ParsedBody) (e : Err)
    (ht : isTruthy b.title = true) (hput : w.putOutcome = Except.ok ())
    (hm : w.metricOutcome = Except.error e) :
    mainHandler w ⟨"POST", p, pid, RawBody.json b⟩
      = (createResponse 201 (BodyVal.item (createdTodo w b)),
         [Call.dbPut (createdTodo w b),
          Call.cwPutMetric "TodoApp" "TodoCreatedCount" 1]) := by
  simp [mainHandler, route, createTodo, parseBody, putMetric, ht, hput, hm]

/-- A concrete world whose metrics sink fails. -/
def metricFailWorld : World :=
  { okWorld with metricOutcome := Except.error ⟨"Throttling"⟩ }

/-- C7 witness: instantiation at a concrete body and a world whose
metrics sink fails. -/
theorem create_metric_failure_still_201_witness :
    isTruthy cBody.title = true ∧
    metricFailWorld.putOutcome = Except.ok () ∧
    metricFailWorld.metricOutcome = Except.error ⟨"Throttling"⟩ ∧
    mainHandler metricFailWorld ⟨"POST", "/todos", none, RawBody.json cBody⟩
      = (createResponse 201 (BodyVal.item (createdTodo metricFailWorld cBody)),
         [Call.dbPut (createdTodo metricFailWorld cBody),
          Call.cwPutMetric "TodoApp" "TodoCreatedCount" 1]) :=
  ⟨rfl, rfl, rfl,
   create_metric_failure_still_201 metricFailWorld "/todos" none cBody ⟨"Throttling"⟩ rfl rfl rfl⟩


/-- A concrete update body setting title and completed only. -/
def uBody : ParsedBody := ⟨some "new title", none, some true⟩

/-- Helper: a PUT with a non-empty update set always issues exactly one
UpdateCommand carrying the body fields plus the updatedAt clause,
whatever the store outcome. -/
theorem updateTodo_trace (w : World) (p : String) (pid : Option String)
    (b : ParsedBody) (hb : (buildUpdateSet b).isEmptySet = false) :
    (mainHandler w ⟨"PUT", p, pid, RawBody.json b⟩).2
      = [Call.dbUpdate pid (updateFieldsOf b w.updateNow)] := by
  rcases hu : w.updateOutcome with e | attrs
  · by_cases hn : e.name = "ValidationException" <;>
      simp [mainHandler, route, updateTodo, parseBody, hb, hu, hn]
  · simp [mainHandler, route, updateTodo, parseBody, hb, hu]

/-- C5: the update set sent to the store carries a field exactly when it
is defined in the body (definedness, not truthiness), and a body with
none of the three fields defined yields 400 with the
No-valid-fields error and an empty call trace. -/
theorem update_field_selection (w : World) (p : String) (pid : Option String)
    (b : ParsedBody) :
    (updateFieldsOf b w.updateNow).title = b.title ∧
    (updateFieldsOf b w.updateNow).description = b.description ∧
    (updateFieldsOf b w.updateNow).completed = b.completed ∧
    (hasUpdateField b = true →
      (mainHandler w ⟨"PUT", p, pid, RawBody.json b⟩).2
        = [Call.dbUpdate pid (updateFieldsOf b w.updateNow)]) ∧
    (hasUpdateField b = false →
      mainHandler w ⟨"PUT", p, pid, RawBody.json b⟩
        = (createResponse 400 (BodyVal.errObj "No valid fields to update"), [])) := by
  refine ⟨rfl, rfl, rfl, ?_, ?_⟩
  · intro hb
    have hb' : (buildUpdateSet b).isEmptySet = false := by
      simpa [hasUpdateField, Bool.not_eq_true'] using hb
    exact updateTodo_trace w p pid b hb'
  · intro hb
    have hb' : (buildUpdateSet b).isEmptySet = true := by
      simpa [hasUpdateField, Bool.not_eq_false] using hb
    simp [mainHandler, route, updateTodo, parseBody, hb']

/-- C5 witness: instantiation at a body setting title and completed, and
at the empty body. -/
theorem update_field_selection_witness :
    hasUpdateField uBody = true ∧
    hasUpdateField (ParsedBody.mk none none none) = false ∧
    (mainHandler okWorld ⟨"PUT", "/todos/id-0", some "id-0", RawBody.json uBody⟩).2
      = [Call.dbUpdate (some "id-0") (updateFieldsOf uBody okWorld.updateNow)] ∧
    mainHandler okWorld ⟨"PUT", "/todos/id-0", some "id-0", RawBody.json ⟨none, none, none⟩⟩
      = (createResponse 400 (BodyVal.errObj "No valid fields to update"), []) :=
  ⟨rfl, rfl,
   (update_field_selection okWorld "/todos/id-0" (some "id-0") uBody).2.2.2.1 rfl,
   (update_field_selection okWorld "/todos/id-0" (some "id-0") ⟨none, none, none⟩).2.2.2.2 rfl⟩

/-- C2: an update request with at least one recognized field defined
always sends an update set whose updatedAt is the current clock read; a
store failure named ValidationException (the key or attribute path is
invalid, i.e. the record does not exist) yields 404 with the
Todo-not-found error; and a store that applies the update set to the
prior image per its contract yields 200 with the post-update image, in
which every field absent from the body retains its prior value and
updatedAt is the new clock read. -/
theorem update_behavior (w : World) (p : String) (pid : Option String)
    (b : ParsedBody) (prior : Todo) (e : Err) (hb : hasUpdateField b = true) :
    (mainHandler w ⟨"PUT", p, pid, RawBody.json b⟩).2
      = [Call.dbUpdate pid (updateFieldsOf b w.updateNow)] ∧
    (updateFieldsOf b w.updateNow).updatedAt = some w.updateNow ∧
    (w.updateOutcome = Except.error e → e.name = "ValidationException" →
      (mainHandler w ⟨"PUT", p, pid, RawBody.json b⟩).1
        = createResponse 404 (BodyVal.errObj "Todo not found")) ∧
    (w.updateOutcome = Except.ok (applyUpdate prior (updateFieldsOf b w.updateNow)) →
      (mainHandler w ⟨"PUT", p, pid, RawBody.json b⟩).1
        = createResponse 200
            (BodyVal.item (applyUpdate prior (updateFieldsOf b w.updateNow))) ∧
      (applyUpdate prior (updateFieldsOf b w.updateNow)).updatedAt = w.updateNow ∧
      (b.title = none →
        (applyUpdate prior (updateFieldsOf b w.updateNow)).title = prior.title) ∧
      (b.description = none →
        (applyUpdate prior (updateFieldsOf b w.updateNow)).description
          = prior.description) ∧
      (b.completed = none →
        (applyUpdate prior (updateFieldsOf b w.updateNow)).completed
          = prior.completed)) := by
  have hb' : (buildUpdateSet b).isEmptySet = false := by
    simpa [hasUpdateField, Bool.not_eq_true'] using hb
  refine ⟨updateTodo_trace w p pid b hb', rfl, ?_, ?_⟩
  · intro hu hn
    simp [mainHandler, route, updateTodo, parseBody, hb', hu, hn]
  · intro hu
    refine ⟨?_, rfl, ?_, ?_, ?_⟩
    · simp [mainHandler, route, updateTodo, parseBody, hb', hu]
    · intro h; simp [applyUpdate, updateFieldsOf, h]
    · intro h; simp [applyUpdate, updateFieldsOf, h]
    · intro h; simp [applyUpdate, updateFieldsOf, h]

/-- A concrete world whose store applies the concrete update set to the
sample stored item. -/
def updWorld : World :=
  { okWorld with
    updateOutcome :=
      Except.ok (applyUpdate sampleTodo (updateFieldsOf uBody okWorld.updateNow)) }

/-- A concrete world whose store signals an invalid key or attribute
path on update. -/
def missingWorld : World :=
  { okWorld with updateOutcome := Except.error ⟨"ValidationException"⟩ }

/-- C2 witness: instantiation at a concrete body, at a world whose
store applies the update set, and at a world that signals a missing
record. -/
theorem update_behavior_witness :
    hasUpdateField uBody = true ∧
    (mainHandler updWorld ⟨"PUT", "/todos/id-0", some "id-0", RawBody.json uBody⟩).1
      = createResponse 200
          (BodyVal.item (applyUpdate sampleTodo (updateFieldsOf uBody updWorld.updateNow))) ∧
    (mainHandler missingWorld ⟨"PUT", "/todos/id-0", some "id-0", RawBody.json uBody⟩).1
      = createResponse 404 (BodyVal.errObj "Todo not found") :=
  ⟨rfl,
   ((update_behavior updWorld "/todos/id-0" (some "id-0") uBody sampleTodo
      ⟨"ValidationException"⟩ rfl).2.2.2 rfl).1,
   (update_behavior missingWorld "/todos/id-0" (some "id-0") uBody sampleTodo
      ⟨"ValidationException"⟩ rfl).2.2.1 rfl rfl⟩

/-- Helper: a DELETE always issues exactly one existence-conditioned
DeleteCommand on the path identifier, whatever the store outcome. -/
theorem deleteTodo_trace (w : World) (p : String) (pid : Option String) (rb : RawBody) :
    (mainHandler w ⟨"DELETE", p, pid, rb⟩).2
      = [Call.dbDelete pid "attribute_exists(todoId)"] := by
  rcases hd : w.deleteOutcome with e | u
  · by_cases hn : e.name = "ConditionalCheckFailedException" <;>
      simp [mainHandler, route, deleteTodo, hd, hn]
  · simp [mainHandler, route, deleteTodo, hd]

/-- C3 (amended): a delete request issues a single store deletion
conditioned on the existence of the item; a conditional-check failure
yields 404 with the Todo-not-found error; on success it returns 204
whose body is the serialized empty JSON object (two characters), not an
empty string. -/
theorem delete_behavior (w : World) (p : String) (pid : Option String)
    (rb : RawBody) (e : Err) :
    (mainHandler w ⟨"DELETE", p, pid, rb⟩).2
      = [Call.dbDelete pid "attribute_exists(todoId)"] ∧
    (w.deleteOutcome = Except.ok () →
      (mainHandler w ⟨"DELETE", p, pid, rb⟩).1 = createResponse 204 BodyVal.emptyObj ∧
      (mainHandler w ⟨"DELETE", p, pid, rb⟩).1.bodyText = "\x7b\x7d") ∧
    (w.deleteOutcome = Except.error e → e.name = "ConditionalCheckFailedException" →
      (mainHandler w ⟨"DELETE", p, pid, rb⟩).1
        = createResponse 404 (BodyVal.errObj "Todo not found")) := by
  refine ⟨deleteTodo_trace w p pid rb, ?_, ?_⟩
  · intro hd
    constructor
    · simp [mainHandler, route, deleteTodo, hd]
    · simp [mainHandler, route, deleteTodo, hd, ApiResponse.bodyText, stringifyBody,
            createResponse]
  · intro hd hn
    simp [mainHandler, route, deleteTodo, hd, hn]

/-- C3 witness: instantiation at a concrete identifier, at the
all-success world and at a world whose conditional check fails. -/
theorem delete_behavior_witness :
    okWorld.deleteOutcome = Except.ok () ∧
    (mainHandler okWorld ⟨"DELETE", "/todos/id-0", some "id-0", RawBody.nullBody⟩).1
      = createResponse 204 BodyVal.emptyObj ∧
    (mainHandler { okWorld with deleteOutcome := Except.error ⟨"ConditionalCheckFailedException"⟩ }
        ⟨"DELETE", "/todos/id-0", some "id-0", RawBody.nullBody⟩).1
      = createResponse 404 (BodyVal.errObj "Todo not found") :=
  ⟨rfl,
   ((delete_behavior okWorld "/todos/id-0" (some "id-0") RawBody.nullBody
      ⟨"ConditionalCheckFailedException"⟩).2.1 rfl).1,
   (delete_behavior
      { okWorld with deleteOutcome := Except.error ⟨"ConditionalCheckFailedException"⟩ }
      "/todos/id-0" (some "id-0") RawBody.nullBody
      ⟨"ConditionalCheckFailedException"⟩).2.2 rfl rfl⟩

/-- C3 counterexample: a successful delete does return 204, but its
serialized body is the two-character empty JSON object, not an empty
body. -/
theorem delete_empty_body_cex :
    (mainHandler okWorld ⟨"DELETE", "/todos/id-0", some "id-0", RawBody.nullBody⟩).1.statusCode
      = 204 ∧
    (mainHandler okWorld ⟨"DELETE", "/todos/id-0", some "id-0", RawBody.nullBody⟩).1.bodyText
      ≠ "" ∧
    (mainHandler okWorld ⟨"DELETE", "/todos/id-0", some "id-0", RawBody.nullBody⟩).1.bodyText
      = "\x7b\x7d" := by
  refine ⟨rfl, ?_, rfl⟩
  decide

/-- C9: a GET without a truthy identifier performs a single full scan
and, when the scan succeeds, returns 200 with exactly the items the
store returned; a store returning no item list yields the empty todos
body. -/
theorem list_scan_behavior (w : World) (p : String) (pid : Option String)
    (rb : RawBody) (items : Option (List Todo)) (hid : isTruthy pid = false)
    (hscan : w.scanOutcome = Except.ok items) :
    mainHandler w ⟨"GET", p, pid, rb⟩
      = (createResponse 200 (BodyVal.todos (items.getD [])), [Call.dbScan]) ∧
    (items = none →
      mainHandler w ⟨"GET", p, pid, rb⟩
        = (createResponse 200 (BodyVal.todos []), [Call.dbScan])) := by
  constructor
  · simp [mainHandler, route, listTodos, hid, hscan]
  · intro h
    simp [mainHandler, route, listTodos, hid, hscan, h]

/-- C9 witness: instantiation at the empty store. -/
theorem list_scan_behavior_witness :
    isTruthy (none : Option String) = false ∧
    okWorld.scanOutcome = Except.ok (some []) ∧
    mainHandler okWorld ⟨"GET", "/todos", none, RawBody.nullBody⟩
      = (createResponse 200 (BodyVal.todos []), [Call.dbScan]) :=
  ⟨rfl, rfl,
   (list_scan_behavior okWorld "/todos" none RawBody.nullBody (some []) rfl rfl).1⟩

/-- C10: a DELETE whose path parameters carry no identifier, and a PUT
without identifier whose body defines at least one recognized field, are
not rejected at the routing layer: the non-null assertion forwards the
undefined identifier, so exactly one store call keyed on the undefined
(`none`) identifier is issued, and the response is never the 405
method-rejection nor a 400 produced before the store call. -/
theorem missing_id_store_calls (w : World) (p q : String) (rb : RawBody)
    (b : ParsedBody) (hb : hasUpdateField b = true) :
    (mainHandler w ⟨"DELETE", p, none, rb⟩).2
      = [Call.dbDelete none "attribute_exists(todoId)"] ∧
    (mainHandler w ⟨"DELETE", p, none, rb⟩).1.statusCode ≠ 405 ∧
    (mainHandler w ⟨"DELETE", p, none, rb⟩).1.statusCode ≠ 400 ∧
    (mainHandler w ⟨"PUT", q, none, RawBody.json b⟩).2
      = [Call.dbUpdate none (updateFieldsOf b w.updateNow)] ∧
    (mainHandler w ⟨"PUT", q, none, RawBody.json b⟩).1.statusCode ≠ 405 ∧
    (mainHandler w ⟨"PUT", q, none, RawBody.json b⟩).1.statusCode ≠ 400 := by
  have hb' : (buildUpdateSet b).isEmptySet = false := by
    simpa [hasUpdateField, Bool.not_eq_true'] using hb
  refine ⟨deleteTodo_trace w p none rb, ?_, ?_, updateTodo_trace w q none b hb', ?_, ?_⟩
  · rcases hd : w.deleteOutcome with e | u
    · by_cases hn : e.name = "ConditionalCheckFailedException" <;>
        simp [mainHandler, route, deleteTodo, createResponse, hd, hn]
    · simp [mainHandler, route, deleteTodo, createResponse, hd]
  · rcases hd : w.deleteOutcome with e | u
    · by_cases hn : e.name = "ConditionalCheckFailedException" <;>
        simp [mainHandler, route, deleteTodo, createResponse, hd, hn]
    · simp [mainHandler, route, deleteTodo, createResponse, hd]
  · rcases hu : w.updateOutcome with e | attrs
    · by_cases hn : e.name = "ValidationException" <;>
        simp [mainHandler, route, updateTodo, parseBody, createResponse, hb', hu, hn]
    · simp [mainHandler, route, updateTodo, parseBody, createResponse, hb', hu]
  · rcases hu : w.updateOutcome with e | attrs
    · by_cases hn : e.name = "ValidationException" <;>
        simp [mainHandler, route, updateTodo, parseBody, createResponse, hb', hu, hn]
    · simp [mainHandler, route, updateTodo, parseBody, createResponse, hb', hu]

/-- C10 witness: instantiation at the all-success world, with no
identifier in the path parameters. -/
theorem missing_id_store_calls_witness :
    hasUpdateField uBody = true ∧
    (mainHandler okWorld ⟨"DELETE", "/todos", none, RawBody.nullBody⟩).2
      = [Call.dbDelete none "attribute_exists(todoId)"] ∧
    (mainHandler okWorld ⟨"PUT", "/todos", none, RawBody.json uBody⟩).2
      = [Call.dbUpdate none (updateFieldsOf uBody okWorld.updateNow)] :=
  ⟨rfl,
   (missing_id_store_calls okWorld "/todos" "/todos" RawBody.nullBody uBody rfl).1,
   (missing_id_store_calls okWorld "/todos" "/todos" RawBody.nullBody uBody rfl).2.2.2.1⟩

/-- C6: every uncaught failure is converted at the top level into 500
with exactly the Internal-server-error body: a malformed body on create
or update, a store failure on the unconditional create write, on get or
on scan, an update failure not named ValidationException, or a delete
failure not named ConditionalCheckFailedException. -/
theorem uncaught_errors_500 (w : World) (ev : Event) (e : Err)
    (h :
      (ev.httpMethod = "POST" ∧ ev.body = RawBody.malformed) ∨
      (ev.httpMethod = "PUT" ∧ ev.body = RawBody.malformed) ∨
      (ev.httpMethod = "POST" ∧
        (∃ b, ev.body = RawBody.json b ∧ isTruthy b.title = true) ∧
        w.putOutcome = Except.error e) ∨
      (ev.httpMethod = "GET" ∧ isTruthy ev.todoId = true ∧
        w.getOutcome = Except.error e) ∨
      (ev.httpMethod = "GET" ∧ isTruthy ev.todoId = false ∧
        w.scanOutcome = Except.error e) ∨
      (ev.httpMethod = "PUT" ∧
        (∃ b, ev.body = RawBody.json b ∧ hasUpdateField b = true) ∧
        w.updateOutcome = Except.error e ∧ e.name ≠ "ValidationException") ∨
      (ev.httpMethod = "DELETE" ∧ w.deleteOutcome = Except.error e ∧
        e.name ≠ "ConditionalCheckFailedException")) :
    (mainHandler w ev).1 = createResponse 500 (BodyVal.errObj "Internal server error") := by
  rcases h with ⟨hm, hb⟩ | ⟨hm, hb⟩ | ⟨hm, ⟨b, hb, ht⟩, hs⟩ | ⟨hm, hid, hs⟩ |
    ⟨hm, hid, hs⟩ | ⟨hm, ⟨b, hb, hf⟩, hs, hn⟩ | ⟨hm, hs, hn⟩
  · simp [mainHandler, route, createTodo, parseBody, hm, hb]
  · simp [mainHandler, route, updateTodo, parseBody, hm, hb]
  · simp [mainHandler, route, createTodo, parseBody, hm, hb, ht, hs]
  · simp [mainHandler, route, getTodo, hm, hid, hs]
  · simp [mainHandler, route, listTodos, hm, hid, hs]
  · have hf' : (buildUpdateSet b).isEmptySet = false := by
      simpa [hasUpdateField, Bool.not_eq_true'] using hf
    simp [mainHandler, route, updateTodo, parseBody, hm, hb, hf', hs, hn]
  · simp [mainHandler, route, deleteTodo, hm, hs, hn]

/-- C6 witness: instantiation at a malformed POST body. -/
theorem uncaught_errors_500_witness :
    (("POST" : String) = "POST" ∧ RawBody.malformed = RawBody.malformed) ∧
    (mainHandler okWorld ⟨"POST", "/todos", none, RawBody.malformed⟩).1
      = createResponse 500 (BodyVal.errObj "Internal server error") :=
  ⟨⟨rfl, rfl⟩,
   uncaught_errors_500 okWorld ⟨"POST", "/todos", none, RawBody.malformed⟩
     ⟨"SyntaxError"⟩ (Or.inl ⟨rfl, rfl⟩)⟩

/-- Helper: equal successful handler results have equal responses. -/
theorem ok_pair_resp {x a : ApiResponse} {tr l : List Call}
    (h : ((Except.ok x : Except Err ApiResponse), tr) = (Except.ok a, l)) : a = x := by
  injection h with h1 h2
  injection h1 with h3
  exact h3.symm

/-- Helper: every successful createTodo response carries the standard
headers. -/
theorem createTodo_ok_headers {w : World} {raw : RawBody} {a : ApiResponse}
    {l : List Call} (h : createTodo w raw = (Except.ok a, l)) :
    a.headers = stdHeaders := by
  unfold createTodo at h
  split at h
  · exact absurd h (by simp)
  · split at h
    · rw [ok_pair_resp h]; rfl
    · split at h
      · exact absurd h (by simp)
      · rw [ok_pair_resp h]; rfl

/-- Helper: every successful getTodo response carries the standard
headers. -/
theorem getTodo_ok_headers {w : World} {k : String} {a : ApiResponse}
    {l : List Call} (h : getTodo w k = (Except.ok a, l)) :
    a.headers = stdHeaders := by
  unfold getTodo at h
  split at h
  · exact absurd h (by simp)
  · rw [ok_pair_resp h]; rfl
  · rw [ok_pair_resp h]; rfl

/-- Helper: every successful listTodos response carries the standard
headers. -/
theorem listTodos_ok_headers {w : World} {a : ApiResponse} {l : List Call}
    (h : listTodos w = (Except.ok a, l)) : a.headers = stdHeaders := by
  unfold listTodos at h
  split at h
  · exact absurd h (by simp)
  · rw [ok_pair_resp h]; rfl

/-- Helper: every successful updateTodo response carries the standard
headers. -/
theorem updateTodo_ok_headers {w : World} {pid : Option String} {raw : RawBody}
    {a : ApiResponse} {l : List Call} (h : updateTodo w pid raw = (Except.ok a, l)) :
    a.headers = stdHeaders := by
  unfold updateTodo at h
  split at h
  · exact absurd h (by simp)
  · split at h
    · rw [ok_pair_resp h]; rfl
    · split at h
      · rw [ok_pair_resp h]; rfl
      · split at h
        · rw [ok_pair_resp h]; rfl
        · exact absurd h (by simp)

/-- Helper: every successful deleteTodo response carries the standard
headers. -/
theorem deleteTodo_ok_headers {w : World} {pid : Option String}
    {a : ApiResponse} {l : List Call} (h : deleteTodo w pid = (Except.ok a, l)) :
    a.headers = stdHeaders := by
  unfold deleteTodo at h
  split at h
  · rw [ok_pair_resp h]; rfl
  · split at h
    · rw [ok_pair_resp h]; rfl
    · exact absurd h (by simp)

/-- Helper: every successful routed response carries the standard
headers. -/
theorem route_ok_headers {w : World} {ev : Event} {a : ApiResponse}
    {l : List Call} (h : route w ev = (Except.ok a, l)) :
    a.headers = stdHeaders := by
  unfold route at h
  split at h
  · exact createTodo_ok_headers h
  · split at h
    · split at h
      · exact getTodo_ok_headers h
      · exact listTodos_ok_headers h
    · split at h
      · exact updateTodo_ok_headers h
      · split at h
        · exact deleteTodo_ok_headers h
        · rw [ok_pair_resp h]; rfl

/-- C8: every response of the dispatcher, for every request and every
outcome, carries exactly the Content-Type and the two permissive
cross-origin headers attached by createResponse. -/
theorem responses_carry_standard_headers (w : World) (ev : Event) :
    (mainHandler w ev).1.headers
      = [("Content-Type", "application/json"),
         ("Access-Control-Allow-Origin", "*"),
         ("Access-Control-Allow-Methods", "GET,POST,PUT,DELETE,OPTIONS")] := by
  have hstd : (mainHandler w ev).1.headers = stdHeaders := by
    rcases hr : route w ev with ⟨res, calls⟩
    rcases res with e | r
    · simp [mainHandler, hr, createResponse]
    · have hh := route_ok_headers hr
      simp [mainHandler, hr, hh]
  simpa [stdHeaders] using hstd
